import Mathlib

/-!
Verification of the rusty_tts TTS gateway core against its specification.

The development shallowly embeds the Python sources:
* `src/providers/__init__.py` — the piped transcoding helpers
  `run_tts_pipeline` / `run_tts_pipeline_with_stdin` and
  `get_adaptive_mp3_settings`;
* `src/tts_manager.py` / `src/app.py` — `TTSManager.synthesize`,
  `generate_filename` (an MD5 content fingerprint) and `create_audio_file`;
* `src/providers/lpc.py` — `LPCEngine.synthesize` (including the
  `Path.with_suffix` validation semantics it trips over);
* `src/providers/pollinations.py` — `PollinationsEngine.synthesize`;
* `src/providers/windows.py` — `WindowsEngine.is_available` and the two
  FFmpeg conversion helpers.

External effects (subprocess spawning, process exit codes, the filesystem,
HTTP responses) are modelled as explicit world/state parameters; Python
exceptions are modelled with `Except` over a small exception enumeration,
so an uncaught exception is an `Except.error` result while a `try/except`
block is an explicit `match` that maps errors back to normal results.
-/

namespace RustyTTS

/-- Python exception classes that the embedded code can raise or catch. -/
inductive PyExn where
  | valueError
  | osError
  | requestException
  | keyError
  | httpException
  | other
deriving DecidableEq, Repr

/-! ### Character-list string helpers

Kernel-reducible replacements for the Python `in`, `startswith` and
path-name operations, working on `String.data` so that `decide` can
evaluate them. -/

/-- `a` is a leading block of `b` (list version of Python `startswith`). -/
def isPfxL : List Char → List Char → Bool
  | [], _ => true
  | _ :: _, [] => false
  | a :: as, b :: bs => a == b && isPfxL as bs

/-- `pat` occurs contiguously inside `l` (Python `pat in s`). -/
def isSubL (pat : List Char) : List Char → Bool
  | [] => pat.isEmpty
  | c :: rest => isPfxL pat (c :: rest) || isSubL pat rest

/-- Python `needle in hay` on strings. -/
def strInStr (needle hay : String) : Bool :=
  isSubL needle.data hay.data

/-- Python `c in s` for a single character. -/
def strHasChar (s : String) (c : Char) : Bool :=
  s.data.contains c

/-- Python `s.startswith(t)`. -/
def strStarts (s t : String) : Bool :=
  isPfxL t.data s.data

/-! ### MD5 (`hashlib.md5`)

A faithful implementation of MD5 over the UTF-8 bytes of the input, as
used by `generate_filename` in `src/app.py`.  All 32-bit arithmetic is
`Nat` reduced mod `2 ^ 32`. -/

/-- The 64 MD5 round constants (floor(2^32 * abs(sin(i+1)))). -/
def md5K : List Nat :=
  [0xd76aa478, 0xe8c7b756, 0x242070db, 0xc1bdceee,
   0xf57c0faf, 0x4787c62a, 0xa8304613, 0xfd469501,
   0x698098d8, 0x8b44f7af, 0xffff5bb1, 0x895cd7be,
   0x6b901122, 0xfd987193, 0xa679438e, 0x49b40821,
   0xf61e2562, 0xc040b340, 0x265e5a51, 0xe9b6c7aa,
   0xd62f105d, 0x02441453, 0xd8a1e681, 0xe7d3fbc8,
   0x21e1cde6, 0xc33707d6, 0xf4d50d87, 0x455a14ed,
   0xa9e3e905, 0xfcefa3f8, 0x676f02d9, 0x8d2a4c8a,
   0xfffa3942, 0x8771f681, 0x6d9d6122, 0xfde5380c,
   0xa4beea44, 0x4bdecfa9, 0xf6bb4b60, 0xbebfbc70,
   0x289b7ec6, 0xeaa127fa, 0xd4ef3085, 0x04881d05,
   0xd9d4d039, 0xe6db99e5, 0x1fa27cf8, 0xc4ac5665,
   0xf4292244, 0x432aff97, 0xab9423a7, 0xfc93a039,
   0x655b59c3, 0x8f0ccc92, 0xffeff47d, 0x85845dd1,
   0x6fa87e4f, 0xfe2ce6e0, 0xa3014314, 0x4e0811a1,
   0xf7537e82, 0xbd3af235, 0x2ad7d2bb, 0xeb86d391]

/-- The 64 MD5 per-round left-rotation amounts. -/
def md5S : List Nat :=
  [7, 12, 17, 22, 7, 12, 17, 22, 7, 12, 17, 22, 7, 12, 17, 22,
   5, 9, 14, 20, 5, 9, 14, 20, 5, 9, 14, 20, 5, 9, 14, 20,
   4, 11, 16, 23, 4, 11, 16, 23, 4, 11, 16, 23, 4, 11, 16, 23,
   6, 10, 15, 21, 6, 10, 15, 21, 6, 10, 15, 21, 6, 10, 15, 21]

/-- 32-bit left rotation. -/
def rotl32 (x c : Nat) : Nat :=
  Nat.lor ((x <<< c) % 2 ^ 32) ((x % 2 ^ 32) >>> (32 - c))

/-- 32-bit bitwise complement. -/
def not32 (x : Nat) : Nat :=
  Nat.xor (x % 2 ^ 32) 0xffffffff

/-- The MD5 nonlinear function for round `i` applied to `(b, c, d)`. -/
def md5F (i b c d : Nat) : Nat :=
  if i < 16 then Nat.lor (Nat.land b c) (Nat.land (not32 b) d)
  else if i < 32 then Nat.lor (Nat.land d b) (Nat.land (not32 d) c)
  else if i < 48 then Nat.xor b (Nat.xor c d)
  else Nat.xor c (Nat.lor b (not32 d))

/-- The MD5 message-word index for round `i`. -/
def md5G (i : Nat) : Nat :=
  if i < 16 then i
  else if i < 32 then (5 * i + 1) % 16
  else if i < 48 then (3 * i + 5) % 16
  else (7 * i) % 16

/-- Running MD5 state: four 32-bit words. -/
structure MD5State where
  a : Nat
  b : Nat
  c : Nat
  d : Nat
deriving Repr, DecidableEq

/-- One MD5 round: `m` fetches the message words of the current block. -/
def md5Round (m : Nat → Nat) (st : MD5State) (i : Nat) : MD5State :=
  let f := (md5F i st.b st.c st.d + st.a + md5K.getD i 0 + m (md5G i)) % 2 ^ 32
  ⟨st.d, (st.b + rotl32 f (md5S.getD i 0)) % 2 ^ 32, st.b, st.c⟩

/-- Little-endian 32-bit word starting at byte offset `off`. -/
def wordAt (bytes : List Nat) (off : Nat) : Nat :=
  bytes.getD off 0 + 256 * bytes.getD (off + 1) 0 +
    65536 * bytes.getD (off + 2) 0 + 16777216 * bytes.getD (off + 3) 0

/-- Process 64-byte block number `blk` of `bytes`. -/
def md5Block (bytes : List Nat) (st : MD5State) (blk : Nat) : MD5State :=
  let m := fun g => wordAt bytes (64 * blk + 4 * g)
  let r := (List.range 64).foldl (md5Round m) st
  ⟨(st.a + r.a) % 2 ^ 32, (st.b + r.b) % 2 ^ 32,
   (st.c + r.c) % 2 ^ 32, (st.d + r.d) % 2 ^ 32⟩

/-- The 8 little-endian bytes of the 64-bit message bit length. -/
def le8 (n : Nat) : List Nat :=
  (List.range 8).map (fun k => n / 256 ^ k % 256)

/-- MD5 padding: `0x80`, zeros to 56 mod 64, then the 64-bit bit length. -/
def md5Pad (msg : List Nat) : List Nat :=
  let padLen := (64 + 56 - (msg.length + 1) % 64) % 64
  msg ++ [128] ++ List.replicate padLen 0 ++ le8 (8 * msg.length)

/-- MD5 initial chaining values. -/
def md5Init : MD5State :=
  ⟨0x67452301, 0xefcdab89, 0x98badcfe, 0x10325476⟩

/-- Full MD5 digest state of a byte sequence. -/
def md5Bytes (msg : List Nat) : MD5State :=
  let padded := md5Pad msg
  (List.range (padded.length / 64)).foldl (md5Block padded) md5Init

/-- UTF-8 bytes of a string (Python `s.encode()`). -/
def strBytes (s : String) : List Nat :=
  s.toUTF8.toList.map (fun b => b.toNat)

/-- The 128-bit MD5 digest of a string packed as one natural number,
`a + 2^32 b + 2^64 c + 2^96 d`, i.e. the little-endian byte order of the
standard digest. -/
def md5Nat (s : String) : Nat :=
  let st := md5Bytes (strBytes s)
  st.a % 2 ^ 32 + 2 ^ 32 * (st.b % 2 ^ 32) +
    2 ^ 64 * (st.c % 2 ^ 32) + 2 ^ 96 * (st.d % 2 ^ 32)

/-- The MD5 digest as an element of the finite type `Fin (2 ^ 128)`. -/
def md5Fin (s : String) : Fin (2 ^ 128) :=
  ⟨md5Nat s % 2 ^ 128, Nat.mod_lt _ (by norm_num)⟩

/-- Lower-case hex character for a nibble. -/
def hexChar (n : Nat) : Char :=
  "0123456789abcdef".data.getD n '0'

/-- Two hex characters for a byte (high nibble first). -/
def hexByte (b : Nat) : List Char :=
  [hexChar (b / 16), hexChar (b % 16)]

/-- Python `hexdigest()`: the 16 digest bytes in order, each as two hex
characters.  A pure function of the packed digest. -/
def hexDigest128 (n : Fin (2 ^ 128)) : String :=
  String.mk (((List.range 16).map (fun k => hexByte (n.val / 256 ^ k % 256))).foldr
    (fun a b => a ++ b) [])

/-! ### Content fingerprint and cache (`src/app.py`) -/

/-- The hash input `f"{text}_{provider}_{voice}"` of `generate_filename`. -/
def ttsContent (text provider voice : String) : String :=
  text ++ "_" ++ provider ++ "_" ++ voice

/-- `generate_filename` (src/app.py:667-671): MD5 hex digest of the
content string with an `.mp3` suffix. -/
def generate_filename (text provider voice : String) : String :=
  hexDigest128 (md5Fin (ttsContent text provider voice)) ++ ".mp3"

/-- `create_audio_file` (src/app.py:673-691).  The audio directory is the
list `files` of file names present; the manager/adapter chain is
abstracted as `adapter`, a function from the directory contents to the
boolean synthesis result and the new directory contents; `calls` counts
how many times the adapter has been invoked.  A failed synthesis raises
`HTTPException`. -/
def create_audio_file (text provider voice : String) (files : List String)
    (adapter : List String → Bool × List String) (calls : Nat) :
    Except PyExn String × List String × Nat :=
  let filename := generate_filename text provider voice
  if files.contains filename then
    (Except.ok filename, files, calls)
  else
    let r := adapter files
    if r.1 then (Except.ok filename, r.2, calls + 1)
    else (Except.error PyExn.httpException, r.2, calls + 1)

/-! ### Transcoding pipeline helpers (`src/providers/__init__.py`) -/

/-- `get_adaptive_mp3_settings` (src/providers/__init__.py:37-55). -/
def get_adaptive_mp3_settings (inputFormat : String) : List String :=
  ["-acodec", "mp3", "-q:a", "2", "-compression_level", "2",
   "-joint_stereo", "1", "-ac", "1"]

/-- Outcome of the external world for one run of `run_tts_pipeline`:
whether each `Popen` spawn and the `communicate`/`wait` phase raise, the
transcoder's exit status, and whether the destination file exists once
both processes have been waited for. -/
structure ProcWorld where
  ttsSpawn : Except PyExn Unit
  ffmpegSpawn : Except PyExn Unit
  communicateR : Except PyExn Unit
  ffmpegReturncode : Int
  destExists : Bool
deriving Repr

/-- `run_tts_pipeline` (src/providers/__init__.py:58-108): spawn the TTS
command, pipe its stdout into FFmpeg, wait for both, and return
`returncode == 0 and output_path.exists()`; every exception inside the
`try` block yields `false`. -/
def run_tts_pipeline (ttsCmd : List String) (outputPath : String)
    (inputFormat : String) (w : ProcWorld) : Bool :=
  let mp3Settings := get_adaptive_mp3_settings inputFormat
  let _ffmpegCmd :=
    ["ffmpeg", "-f", inputFormat, "-i", "pipe:0"] ++ mp3Settings ++ [outputPath, "-y"]
  match w.ttsSpawn with
  | .error _ => false
  | .ok _ =>
    match w.ffmpegSpawn with
    | .error _ => false
    | .ok _ =>
      match w.communicateR with
      | .error _ => false
      | .ok _ => w.ffmpegReturncode == 0 && w.destExists

/-- World outcome for `run_tts_pipeline_with_stdin`: as `ProcWorld`, with
the extra step of writing the payload to the TTS process's stdin, which
can itself raise (e.g. a broken pipe). -/
structure StdinProcWorld where
  ttsSpawn : Except PyExn Unit
  ffmpegSpawn : Except PyExn Unit
  stdinWrite : Except PyExn Unit
  communicateR : Except PyExn Unit
  ffmpegReturncode : Int
  destExists : Bool
deriving Repr

/-- `run_tts_pipeline_with_stdin` (src/providers/__init__.py:111-166). -/
def run_tts_pipeline_with_stdin (ttsCmd : List String) (stdinData : String)
    (outputPath : String) (inputFormat : String) (w : StdinProcWorld) : Bool :=
  let mp3Settings := get_adaptive_mp3_settings inputFormat
  let _ffmpegCmd :=
    ["ffmpeg", "-f", inputFormat, "-i", "pipe:0"] ++ mp3Settings ++ [outputPath, "-y"]
  match w.ttsSpawn with
  | .error _ => false
  | .ok _ =>
    match w.ffmpegSpawn with
    | .error _ => false
    | .ok _ =>
      match w.stdinWrite with
      | .error _ => false
      | .ok _ =>
        match w.communicateR with
        | .error _ => false
        | .ok _ => w.ffmpegReturncode == 0 && w.destExists

/-! ### Provider registry / manager (`src/tts_manager.py`, `src/app.py`) -/

/-- One engine as the manager sees it: the result of its `is_available`
probe, its static `get_voices` catalog, and its abstract `synthesize`
outcome for a given text and voice. -/
structure Engine where
  availB : Bool
  voices : List String
  synthResult : String → String → Bool

/-- Python-dict lookup on an association list (first match wins). -/
def lookupS {α : Type} : List (String × α) → String → Option α
  | [], _ => none
  | (k, v) :: rest, key => if key == k then some v else lookupS rest key

/-- The manager's two dictionaries, `self.engines` and `self.providers`
(the latter storing the registered voice list). -/
structure Manager where
  engines : List (String × Engine)
  providers : List (String × List String)

/-- `TTSManager._initialize_engines` (src/tts_manager.py:18-39): iterate
the known engines and register name, engine and voice list for each
engine whose `is_available()` probe returns true. -/
def initManager (all : List (String × Engine)) : Manager :=
  let avail := all.filter (fun pr => pr.2.availB)
  ⟨avail, avail.map (fun pr => (pr.1, pr.2.voices))⟩

/-- `TTSManager.synthesize` (src/tts_manager.py:51-59, duplicated at
src/app.py:654-662): fail closed when the provider is not in
`self.engines`, fail closed when the voice is not in the registered
provider's voice list, otherwise delegate.  The returned `Nat` counts
adapter invocations (0 or 1); an unguarded dict access is a `KeyError`. -/
def TTSManager.synthesize (m : Manager) (text provider voice : String) :
    Except PyExn (Bool × Nat) :=
  match lookupS m.engines provider with
  | none => .ok (false, 0)
  | some _ =>
    match lookupS m.providers provider with
    | none => .error .keyError
    | some vs =>
      if vs.contains voice then
        match lookupS m.engines provider with
        | none => .error .keyError
        | some eng => .ok (eng.synthResult text voice, 1)
      else .ok (false, 0)

/-! ### `pathlib.Path.with_suffix` and the LPC adapter (`src/providers/lpc.py`) -/

/-- The characters after the last '/' of a path (the `Path.name`). -/
def pathNameL : List Char → List Char
  | [] => []
  | c :: rest =>
    if rest.contains '/' then pathNameL rest
    else if c == '/' then rest
    else c :: rest

/-- Split a file name at its last dot: `(stem, suffix-from-dot)`.  A name
whose only dot is leading is all stem (a dotfile has no suffix). -/
def splitAtLastDot : List Char → List Char × List Char
  | [] => ([], [])
  | c :: rest =>
    if rest.contains '.' then
      let p := splitAtLastDot rest
      (c :: p.1, p.2)
    else if c == '.' then ([], c :: rest)
    else (c :: rest, [])

/-- `Path.with_suffix(suffix)` (CPython `pathlib`): raises `ValueError`
when the suffix contains the path separator, when it is nonempty and does
not start with a dot, when it is exactly ".", or when the path has no
name; otherwise replaces the final suffix of the name. -/
def withSuffix (path sfx : String) : Except PyExn String :=
  if strHasChar sfx '/' then .error .valueError
  else if (decide (sfx ≠ "") && ! strStarts sfx ".") || sfx == "." then .error .valueError
  else
    let name := pathNameL path.data
    if name.isEmpty then .error .valueError
    else
      let pr := splitAtLastDot name
      let stem := if pr.1.isEmpty then name else pr.1
      let dir := path.data.take (path.data.length - name.length)
      .ok (String.mk (dir ++ stem ++ sfx.data))

/-- External-world outcome for one run of `LPCEngine.synthesize`: the
espeak `subprocess.run` (exit code or spawn exception) and whether it
wrote the temporary WAV, the FFmpeg `subprocess.run`, and whether FFmpeg
wrote the destination file. -/
structure LPCWorld where
  espeakRun : Except PyExn Int
  espeakWrites : Bool
  ffmpegRun : Except PyExn Int
  ffmpegWrites : Bool
deriving Repr

/-- The `try`-block body of `LPCEngine.synthesize`
(src/providers/lpc.py:25-60).  The state threaded through is the list of
existing files and the number of subprocesses launched; an uncaught
exception carries the state at raise time.  Note the first statement,
`output_path.with_suffix('_temp.wav')`, and that the early
`return False` on a non-zero espeak exit performs no cleanup. -/
def lpcBody (text voice outputPath : String) (w : LPCWorld)
    (fs : List String) (spawns : Nat) :
    Except (PyExn × List String × Nat) (Bool × List String × Nat) :=
  match withSuffix outputPath "_temp.wav" with
  | .error e => .error (e, fs, spawns)
  | .ok wavTemp =>
    match w.espeakRun with
    | .error e => .error (e, fs, spawns)
    | .ok rc =>
      let fs1 := if w.espeakWrites then wavTemp :: fs else fs
      if rc != 0 then .ok (false, fs1, spawns + 1)
      else
        match w.ffmpegRun with
        | .error e => .error (e, fs1, spawns + 1)
        | .ok rc2 =>
          let fs2 := if w.ffmpegWrites then outputPath :: fs1 else fs1
          let fs3 := fs2.filter (fun p => ! (p == wavTemp))
          .ok (rc2 == 0 && fs3.contains outputPath, fs3, spawns + 2)

/-- `LPCEngine.synthesize` (src/providers/lpc.py:25-60): the body wrapped
in the blanket `except Exception: return False`. -/
def LPCEngine.synthesize (text voice outputPath : String) (w : LPCWorld)
    (fs : List String) (spawns : Nat) : Bool × List String × Nat :=
  match lpcBody text voice outputPath w fs spawns with
  | .ok r => r
  | .error (_, fs2, sp2) => (false, fs2, sp2)

/-! ### Remote-API adapter (`src/providers/pollinations.py`) -/

/-- An HTTP response as `requests` presents it to the adapter. -/
structure PollResponse where
  statusCode : Nat
  contentType : Option String
  body : List Nat
deriving Repr, DecidableEq

/-- World outcome for one run of `PollinationsEngine.synthesize`: the
`requests.get` result (`error` is a `RequestException`) and whether
opening/writing the destination file succeeds (`false` raises an
`OSError`). -/
structure PollWorld where
  resp : Except PyExn PollResponse
  writeOk : Bool

/-- The `Content-Type` header with the Python
`headers.get('Content-Type', '')` default applied. -/
def ctOf (r : PollResponse) : String :=
  match r.contentType with
  | some s => s
  | none => ""

/-- `response.raise_for_status()` raises for 4xx and 5xx codes. -/
def statusErr (code : Nat) : Bool :=
  decide (400 ≤ code) && decide (code < 600)

/-- `PollinationsEngine.synthesize` (src/providers/pollinations.py:16-34).
The filesystem is an association list from path to file bytes.  The
`except` clause catches only `requests.exceptions.RequestException`
(which includes the `HTTPError` from `raise_for_status`), so an `OSError`
from the destination write escapes as `Except.error`. -/
def PollinationsEngine.synthesize (text voice outputPath : String)
    (w : PollWorld) (fs : List (String × List Nat)) :
    Except PyExn (Bool × List (String × List Nat)) :=
  match w.resp with
  | .error _ => .ok (false, fs)
  | .ok r =>
    if statusErr r.statusCode then .ok (false, fs)
    else if strInStr "audio/mpeg" (ctOf r) then
      if w.writeOk then .ok (true, (outputPath, r.body) :: fs)
      else .error .osError
    else .ok (false, fs)

/-! ### Remote-proxy (Windows) adapter (`src/providers/windows.py`) -/

/-- World outcome for one FFmpeg conversion run in the Windows adapter:
the `Popen` spawn, the `communicate` call, the exit status, and whether
the destination file exists after the process finished. -/
structure ConvWorld where
  spawn : Except PyExn Unit
  communicateR : Except PyExn Unit
  returncode : Int
  destExists : Bool
deriving Repr

/-- `WindowsEngine._convert_raw_pcm_to_mp3` (src/providers/windows.py:
109-141): feed the PCM bytes to FFmpeg and return `returncode == 0`;
every exception yields `false`.  The destination file is never
consulted. -/
def WindowsEngine.convert_raw_pcm_to_mp3 (pcmData : List Nat)
    (outputFile : String) (sampleRate bitDepth channels : Nat)
    (w : ConvWorld) : Bool :=
  match w.spawn with
  | .error _ => false
  | .ok _ =>
    match w.communicateR with
    | .error _ => false
    | .ok _ => w.returncode == 0

/-- `WindowsEngine._convert_wav_to_mp3` (src/providers/windows.py:
143-172): same shape as the raw-PCM helper without the format flags. -/
def WindowsEngine.convert_wav_to_mp3 (wavData : List Nat)
    (outputFile : String) (w : ConvWorld) : Bool :=
  match w.spawn with
  | .error _ => false
  | .ok _ =>
    match w.communicateR with
    | .error _ => false
    | .ok _ => w.returncode == 0

/-- World outcome for one `WindowsEngine.is_available` query: the
`/health` request either raises or returns a status code together with
the `response.json().get('status')` result (which itself may raise on a
malformed body; `none` means the field is absent or not a string). -/
structure HealthWorld where
  probe : Except PyExn (Nat × Except PyExn (Option String))

/-- `WindowsEngine.is_available` (src/providers/windows.py:31-43): false
when the configuration flag is off; otherwise true exactly when the
`/health` probe returns status code 200 and a JSON status of "ok", with
every exception caught by the bare `except` and turned into false. -/
def WindowsEngine.is_available (enabled : Bool) (w : HealthWorld) : Bool :=
  if ! enabled then false
  else
    match w.probe with
    | .error _ => false
    | .ok (code, js) =>
      if code == 200 then
        match js with
        | .error _ => false
        | .ok st => st == some "ok"
      else false

/-! ## Theorems -/

/-! ### Shared helper lemmas -/

/-- String append cancels on the right. -/
theorem strAppend_cancel_right {a b c : String} (h : a ++ c = b ++ c) : a = b := by
  have hd : a.data ++ c.data = b.data ++ c.data := by
    have := congrArg String.data h
    simpa [String.data_append] using this
  exact String.ext (List.append_cancel_right hd)

/-- String append cancels on the left. -/
theorem strAppend_cancel_left {a b c : String} (h : c ++ a = c ++ b) : a = b := by
  have hd : c.data ++ a.data = c.data ++ b.data := by
    have := congrArg String.data h
    simpa [String.data_append] using this
  exact String.ext (List.append_cancel_left hd)

/-- The fingerprint content string, fully right-associated. -/
theorem ttsContent_reassoc (t p v : String) :
    ttsContent t p v = t ++ ("_" ++ (p ++ ("_" ++ v))) := by
  simp [ttsContent, String.append_assoc]

/-- The fingerprint content string, split after the provider separator. -/
theorem ttsContent_reassoc2 (t p v : String) :
    ttsContent t p v = (t ++ "_") ++ (p ++ ("_" ++ v)) := by
  simp [ttsContent, String.append_assoc]

/-- Registered voice lists are the engines' voice catalogs: looking a key
up in the mapped association list gives the mapped lookup result. -/
theorem lookupS_map_voices (l : List (String × Engine)) (k : String) :
    lookupS (l.map (fun pr => (pr.1, pr.2.voices))) k =
      (lookupS l k).map Engine.voices := by
  induction l with
  | nil => rfl
  | cons hd tl ih =>
    obtain ⟨n, e⟩ := hd
    simp only [List.map_cons, lookupS]
    by_cases h : (k == n) = true <;> simp [h, ih]

/-- On a manager whose provider table was built from its engine table (as
`_initialize_engines` does), `synthesize` never raises, fails closed on
an unknown provider or a voice outside the registered catalog, and
otherwise delegates exactly once. -/
theorem manager_synthesize_consistent (l : List (String × Engine))
    (text provider voice : String) :
    TTSManager.synthesize ⟨l, l.map (fun pr => (pr.1, pr.2.voices))⟩ text provider voice =
      (match lookupS l provider with
       | none => .ok (false, 0)
       | some eng =>
         if eng.voices.contains voice then .ok (eng.synthResult text voice, 1)
         else .ok (false, 0)) := by
  unfold TTSManager.synthesize
  simp only [lookupS_map_voices]
  cases h : lookupS l provider with
  | none => rfl
  | some eng => by_cases hv : eng.voices.contains voice = true <;> simp [hv]

/-! ### C1 — piped transcoding success requires exit 0 AND existing file -/

/-- C1: for every TTS command, destination path and input format, the
piped helpers `run_tts_pipeline` and `run_tts_pipeline_with_stdin`
return true exactly when every pipeline step succeeded, the transcoder
exited with status zero AND the destination file exists afterwards; in
particular a transcoder run that exits 0 without producing the file (the
`destExists = false` worlds) yields false. -/
theorem c1_pipeline_success_requires_exit_zero_and_file
    (ttsCmd : List String) (outputPath inputFormat stdinData : String)
    (w : ProcWorld) (w2 : StdinProcWorld) :
    (run_tts_pipeline ttsCmd outputPath inputFormat w = true ↔
      w.ttsSpawn = .ok () ∧ w.ffmpegSpawn = .ok () ∧ w.communicateR = .ok () ∧
        w.ffmpegReturncode = 0 ∧ w.destExists = true) ∧
    (run_tts_pipeline_with_stdin ttsCmd stdinData outputPath inputFormat w2 = true ↔
      w2.ttsSpawn = .ok () ∧ w2.ffmpegSpawn = .ok () ∧ w2.stdinWrite = .ok () ∧
        w2.communicateR = .ok () ∧ w2.ffmpegReturncode = 0 ∧ w2.destExists = true) := by
  constructor
  · obtain ⟨t, f, c, rc, de⟩ := w
    cases t <;> cases f <;> cases c <;>
      simp [run_tts_pipeline, Bool.and_eq_true, beq_iff_eq]
  · obtain ⟨t, f, sw, c, rc, de⟩ := w2
    cases t <;> cases f <;> cases sw <;> cases c <;>
      simp [run_tts_pipeline_with_stdin, Bool.and_eq_true, beq_iff_eq]

/-! ### C2 — manager fails closed before invoking any adapter -/

/-- C2: on a manager built by `_initialize_engines`, `synthesize` returns
false with zero adapter invocations (hence no subprocess and no network
call) whenever the provider is not registered or the voice is not in the
registered provider's voice list, and otherwise returns the adapter's
boolean verbatim with exactly one invocation; it never raises. -/
theorem c2_manager_synthesize_fails_closed (all : List (String × Engine))
    (text provider voice : String) :
    TTSManager.synthesize (initManager all) text provider voice =
      (match lookupS (initManager all).engines provider with
       | none => .ok (false, 0)
       | some eng =>
         if eng.voices.contains voice then .ok (eng.synthResult text voice, 1)
         else .ok (false, 0)) :=
  manager_synthesize_consistent (all.filter fun pr => pr.2.availB) text provider voice

/-! ### C4 — the Windows conversion helpers trust the exit code alone -/

/-- A world in which FFmpeg spawns, communicates and exits 0 but the
destination file does not exist afterwards. -/
def convZeroNoFile : ConvWorld :=
  ⟨.ok (), .ok (), 0, false⟩

/-- C4 counterexample: both Windows conversion helpers return true in a
world where the transcoder exits 0 but the destination file is missing,
so "a missing output file yields a false result" fails for them. -/
theorem c4_counterexample_exit_zero_without_file :
    WindowsEngine.convert_raw_pcm_to_mp3 [0, 1] "audio_files/x.mp3" 22050 16 1
        convZeroNoFile = true ∧
    WindowsEngine.convert_wav_to_mp3 [0, 1] "audio_files/x.mp3" convZeroNoFile = true ∧
    convZeroNoFile.destExists = false :=
  ⟨rfl, rfl, rfl⟩

/-- C4 amended: the Windows adapter's conversion helpers return true
exactly when the transcoder spawns, communicates and exits with status
zero — they never consult the destination file (the existence check is
only in the shared piped helpers, cf. the C1 theorem). -/
theorem c4_amended_windows_convert_exit_code_only
    (pcmData wavData : List Nat) (outputFile : String)
    (sampleRate bitDepth channels : Nat) (w : ConvWorld) :
    (WindowsEngine.convert_raw_pcm_to_mp3 pcmData outputFile sampleRate bitDepth
        channels w = true ↔
      w.spawn = .ok () ∧ w.communicateR = .ok () ∧ w.returncode = 0) ∧
    (WindowsEngine.convert_wav_to_mp3 wavData outputFile w = true ↔
      w.spawn = .ok () ∧ w.communicateR = .ok () ∧ w.returncode = 0) := by
  obtain ⟨sp, co, rc, de⟩ := w
  cases sp <;> cases co <;>
    simp [WindowsEngine.convert_raw_pcm_to_mp3, WindowsEngine.convert_wav_to_mp3,
      beq_iff_eq]

/-! ### C10 — Windows availability gated by flag and healthy probe -/

/-- C10: `WindowsEngine.is_available` is true exactly when the
configuration flag is enabled and the `/health` probe returns status
code 200 with JSON status "ok"; a disabled flag, a raising probe, a
non-200 code, a malformed body or a non-ok status all give false (the
function is total, so it never throws). -/
theorem c10_windows_is_available_iff (enabled : Bool) (w : HealthWorld) :
    WindowsEngine.is_available enabled w = true ↔
      enabled = true ∧ w.probe = .ok (200, .ok (some "ok")) := by
  obtain ⟨probe⟩ := w
  cases enabled with
  | false => simp [WindowsEngine.is_available]
  | true =>
    cases probe with
    | error e => simp [WindowsEngine.is_available]
    | ok p =>
      obtain ⟨code, js⟩ := p
      by_cases hc : code = 200
      · subst hc
        cases js with
        | error e => simp [WindowsEngine.is_available]
        | ok st => simp [WindowsEngine.is_available, beq_iff_eq]
      · cases js <;> simp [WindowsEngine.is_available, hc]

/-! ### C7 / C3 — the LPC adapter's ValueError and its frame effect -/

/-- `with_suffix('_temp.wav')` raises `ValueError` for every path: the
suffix is nonempty and does not start with a dot. -/
theorem withSuffix_temp_wav_invalid (p : String) :
    withSuffix p "_temp.wav" = .error .valueError := by
  unfold withSuffix
  rw [if_neg (by decide), if_pos (by decide)]

/-- `LPCEngine.synthesize` is inert: the very first statement of its
`try` block raises, the blanket handler returns false, and neither the
filesystem nor the subprocess count changes. -/
theorem lpc_synthesize_inert (text voice outputPath : String) (w : LPCWorld)
    (fs : List String) (spawns : Nat) :
    LPCEngine.synthesize text voice outputPath w fs spawns = (false, fs, spawns) := by
  unfold LPCEngine.synthesize lpcBody
  rw [withSuffix_temp_wav_invalid]

/-- C7: for every input and world, `LPCEngine.synthesize` returns false,
launches no subprocess and writes no file — `with_suffix('_temp.wav')`
raises `ValueError` before the espeak command is ever run and the
blanket `except Exception` converts it into a false return. -/
theorem c7_lpc_synthesize_always_false_no_effects
    (text voice outputPath : String) (w : LPCWorld)
    (fs : List String) (spawns : Nat) :
    LPCEngine.synthesize text voice outputPath w fs spawns = (false, fs, spawns) :=
  lpc_synthesize_inert text voice outputPath w fs spawns

/-- C3: after `LPCEngine.synthesize` returns — on every input, every
world and every exit path (the only reachable one raises) — no file that
was absent before the call exists afterwards; in particular the
intermediate temporary WAV file does not exist after the call. -/
theorem c3_lpc_temp_file_never_remains
    (text voice outputPath p : String) (w : LPCWorld)
    (fs : List String) (spawns : Nat)
    (h : fs.contains p = false) :
    ((LPCEngine.synthesize text voice outputPath w fs spawns).2.1).contains p = false := by
  rw [lpc_synthesize_inert]
  exact h

/-- C3 witness at a concrete input: the temporary-WAV path is absent
before and after a concrete synthesis call. -/
theorem c3_lpc_temp_file_never_remains_witness :
    (([] : List String).contains "audio_files/x_temp.wav" = false) ∧
    ((LPCEngine.synthesize "Hello" "robot_low" "audio_files/x.mp3"
        ⟨.ok 0, true, .ok 0, true⟩ [] 0).2.1).contains "audio_files/x_temp.wav" = false :=
  ⟨rfl, c3_lpc_temp_file_never_remains "Hello" "robot_low" "audio_files/x.mp3"
    "audio_files/x_temp.wav" ⟨.ok 0, true, .ok 0, true⟩ [] 0 rfl⟩

/-! ### C5 — which internal faults the adapters convert to false -/

/-- A world where the remote API answers 200 with MPEG audio but opening
or writing the destination file raises an `OSError`. -/
def pollGoodRespBadWrite : PollWorld :=
  ⟨.ok ⟨200, some "audio/mpeg", [73, 68, 51]⟩, false⟩

/-- C5 counterexample: the Pollinations adapter propagates the `OSError`
raised while writing the destination file instead of converting it to a
false return — its `except` clause only catches `RequestException`. -/
theorem c5_counterexample_write_error_escapes :
    PollinationsEngine.synthesize "Hello world" "alloy" "audio_files/x.mp3"
      pollGoodRespBadWrite [] = .error .osError := by
  rfl

/-- C5 amended: every adapter except the remote-API one converts all
internal faults to false (the pipeline helpers, the LPC adapter and the
Windows helpers are total by their blanket handlers — cf. the C1, C7 and
C4 theorems); the remote-API adapter converts network failures, HTTP
status errors and wrong content types to false, and propagates an
exception exactly when a successful MPEG response meets a failing
destination write. -/
theorem c5_amended_only_write_error_propagates
    (text voice outputPath : String) (w : PollWorld)
    (fs : List (String × List Nat)) :
    (∃ e, PollinationsEngine.synthesize text voice outputPath w fs = .error e) ↔
      (∃ r, w.resp = .ok r ∧ statusErr r.statusCode = false ∧
        strInStr "audio/mpeg" (ctOf r) = true ∧ w.writeOk = false) := by
  obtain ⟨resp, writeOk⟩ := w
  cases resp with
  | error e => simp [PollinationsEngine.synthesize]
  | ok r =>
    by_cases hs : statusErr r.statusCode = true
    · simp [PollinationsEngine.synthesize, hs]
    · by_cases hm : strInStr "audio/mpeg" (ctOf r) = true <;> cases writeOk <;>
        simp [PollinationsEngine.synthesize, hs, hm]

/-! ### C8 — the remote-API adapter's success condition -/

/-- C8: with a received response and a writable destination, the
Pollinations adapter returns true exactly when the response status is a
success (no `raise_for_status` error) and the declared Content-Type
contains "audio/mpeg", and then the raw response body is stored
byte-for-byte at the destination; any other content type or an error
status yields false with nothing written, and a network error
(`RequestException`) also yields false. -/
theorem c8_pollinations_success_characterization
    (text voice outputPath : String) (r : PollResponse)
    (fs : List (String × List Nat)) :
    (PollinationsEngine.synthesize text voice outputPath ⟨.ok r, true⟩ fs =
        .ok (true, (outputPath, r.body) :: fs) ↔
      statusErr r.statusCode = false ∧ strInStr "audio/mpeg" (ctOf r) = true) ∧
    (PollinationsEngine.synthesize text voice outputPath ⟨.ok r, true⟩ fs =
        .ok (false, fs) ↔
      (statusErr r.statusCode = true ∨ strInStr "audio/mpeg" (ctOf r) = false)) ∧
    (∀ e : PyExn, PollinationsEngine.synthesize text voice outputPath ⟨.error e, true⟩ fs =
        .ok (false, fs)) := by
  refine ⟨?_, ?_, fun e => rfl⟩ <;>
    by_cases hs : statusErr r.statusCode = true <;>
      by_cases hm : strInStr "audio/mpeg" (ctOf r) = true <;>
        simp [PollinationsEngine.synthesize, hs, hm]

/-! ### C6 — idempotent cache resolve -/

/-- C6: when the adapter, on invocation, reports success and creates the
fingerprint file (the contract every adapter's true result promises),
two sequential `create_audio_file` calls for the same (text, provider,
voice) return the same filename, the adapter is invoked at most once
across both calls, and the second call performs no new invocation — it
short-circuits on the existing file. -/
theorem c6_cache_resolve_idempotent (text provider voice : String)
    (files : List String) (adapter : List String → Bool × List String)
    (hA : ∀ fs, (adapter fs).1 = true ∧
      ((adapter fs).2).contains (generate_filename text provider voice) = true) :
    (create_audio_file text provider voice files adapter 0).1 =
        .ok (generate_filename text provider voice) ∧
    (create_audio_file text provider voice
        (create_audio_file text provider voice files adapter 0).2.1 adapter
        (create_audio_file text provider voice files adapter 0).2.2).1 =
        .ok (generate_filename text provider voice) ∧
    (create_audio_file text provider voice
        (create_audio_file text provider voice files adapter 0).2.1 adapter
        (create_audio_file text provider voice files adapter 0).2.2).2.2 =
        (create_audio_file text provider voice files adapter 0).2.2 ∧
    (create_audio_file text provider voice files adapter 0).2.2 ≤ 1 := by
  by_cases h0 : generate_filename text provider voice ∈ files
  · simp [create_audio_file, h0]
  · have h1 := (hA files).1
    have h2 : generate_filename text provider voice ∈ (adapter files).2 := by
      simpa using (hA files).2
    simp [create_audio_file, h0, h1, h2]

/-- A counting stub adapter that reports success and creates the
fingerprint file for the witness request. -/
def stubAdapter : List String → Bool × List String :=
  fun fs => (true, generate_filename "hi" "espeak" "en" :: fs)

/-- C6 witness at a concrete input: the stub adapter satisfies the
success contract, and both calls resolve to the fingerprint name with a
single invocation in total. -/
theorem c6_cache_resolve_idempotent_witness :
    (create_audio_file "hi" "espeak" "en" [] stubAdapter 0).1 =
        .ok (generate_filename "hi" "espeak" "en") ∧
    (create_audio_file "hi" "espeak" "en"
        (create_audio_file "hi" "espeak" "en" [] stubAdapter 0).2.1 stubAdapter
        (create_audio_file "hi" "espeak" "en" [] stubAdapter 0).2.2).1 =
        .ok (generate_filename "hi" "espeak" "en") ∧
    (create_audio_file "hi" "espeak" "en"
        (create_audio_file "hi" "espeak" "en" [] stubAdapter 0).2.1 stubAdapter
        (create_audio_file "hi" "espeak" "en" [] stubAdapter 0).2.2).2.2 =
        (create_audio_file "hi" "espeak" "en" [] stubAdapter 0).2.2 ∧
    (create_audio_file "hi" "espeak" "en" [] stubAdapter 0).2.2 ≤ 1 :=
  c6_cache_resolve_idempotent "hi" "espeak" "en" [] stubAdapter
    (fun fs => ⟨rfl, by simp [stubAdapter]⟩)

/-! ### C9 — fingerprint sensitivity -/

/-- C9 counterexample: the filename is a 128-bit MD5 digest rendered as
a fixed-length hex string, so by pigeonhole over the infinitely many
texts there exist two triples differing only in the text whose generated
filenames coincide — universal filename difference is false. -/
theorem c9_counterexample_fingerprint_collision_exists :
    ¬ (∀ t1 t2 p v : String, t1 ≠ t2 →
        generate_filename t1 p v ≠ generate_filename t2 p v) := by
  intro h
  obtain ⟨i, j, hij, heq⟩ :=
    Fintype.exists_ne_map_eq_of_card_lt
      (fun i : Fin (2 ^ 128 + 1) =>
        md5Fin (ttsContent (String.mk (List.replicate i.val 'a')) "espeak" "en"))
      (by simp only [Fintype.card_fin]; exact Nat.lt_succ_self _)
  have htx : String.mk (List.replicate i.val 'a') ≠ String.mk (List.replicate j.val 'a') := by
    intro hstr
    apply hij
    have hdata : List.replicate i.val 'a' = List.replicate j.val 'a' := by
      injection hstr
    have hlen := congrArg List.length hdata
    simp only [List.length_replicate] at hlen
    exact Fin.ext hlen
  have hfn : generate_filename (String.mk (List.replicate i.val 'a')) "espeak" "en" =
      generate_filename (String.mk (List.replicate j.val 'a')) "espeak" "en" :=
    congrArg (fun d => hexDigest128 d ++ ".mp3") heq
  exact h _ _ "espeak" "en" htx hfn

/-- C9 amended: changing exactly one of text, provider or voice always
changes the string fed to the hash (so filenames differ whenever the
MD5 digests differ — collisions are hash collisions, never
concatenation ambiguities), and the filename is a pure function of the
triple: the hex rendering of the MD5 digest of the content string with
an `.mp3` suffix, with no dependency on time or environment. -/
theorem c9_amended_content_sensitivity_and_purity :
    (∀ t1 t2 p v : String, t1 ≠ t2 → ttsContent t1 p v ≠ ttsContent t2 p v) ∧
    (∀ t p1 p2 v : String, p1 ≠ p2 → ttsContent t p1 v ≠ ttsContent t p2 v) ∧
    (∀ t p v1 v2 : String, v1 ≠ v2 → ttsContent t p v1 ≠ ttsContent t p v2) ∧
    (∀ t p v : String, generate_filename t p v =
      hexDigest128 (md5Fin (ttsContent t p v)) ++ ".mp3") := by
  refine ⟨?_, ?_, ?_, fun t p v => rfl⟩
  · intro t1 t2 p v hne heq
    rw [ttsContent_reassoc t1 p v, ttsContent_reassoc t2 p v] at heq
    exact hne (strAppend_cancel_right heq)
  · intro t p1 p2 v hne heq
    rw [ttsContent_reassoc2 t p1 v, ttsContent_reassoc2 t p2 v] at heq
    have h2 := strAppend_cancel_left heq
    exact hne (strAppend_cancel_right h2)
  · intro t p v1 v2 hne heq
    exact hne (strAppend_cancel_left heq)

/-- C9 amended witness at concrete inputs: each single-component change
produces a different hash input string. -/
theorem c9_amended_content_sensitivity_witness :
    (("a" : String) ≠ "b" ∧ ttsContent "a" "espeak" "en" ≠ ttsContent "b" "espeak" "en") ∧
    (("espeak" : String) ≠ "sam" ∧
      ttsContent "a" "espeak" "en" ≠ ttsContent "a" "sam" "en") ∧
    (("en" : String) ≠ "fr" ∧ ttsContent "a" "espeak" "en" ≠ ttsContent "a" "espeak" "fr") :=
  ⟨⟨by decide, c9_amended_content_sensitivity_and_purity.1 "a" "b" "espeak" "en" (by decide)⟩,
   ⟨by decide, c9_amended_content_sensitivity_and_purity.2.1 "a" "espeak" "sam" "en" (by decide)⟩,
   ⟨by decide, c9_amended_content_sensitivity_and_purity.2.2.1 "a" "espeak" "en" "fr" (by decide)⟩⟩

end RustyTTS
